import Mathlib

/-!
# Verification of the bents-v3 conversational RAG pipeline

Shallow embedding of the core logic of `src/app/api/links/route.ts` and
`src/lib/db.ts`: the relevance classifier post-processing (`checkRelevance`),
the query rewriter fallback (`rewriteQuery`), the vector-search SQL semantics
(`searchNeonDb`), the product-matching SQL semantics (`getRelatedProducts`),
the video-tag extraction (`processVideoReferences`) and the `POST` orchestrator.

JavaScript strings are embedded as Lean `String`/`List Char`; the string
primitives the route uses (`trim`, `toUpperCase`, `toLowerCase`, `split`,
`replace`, `includes`) are embedded as structural functions on `List Char` so
that every definition evaluates inside the kernel.  SQL fragments are embedded
by their documented PostgreSQL semantics (`WHERE`/`ORDER BY`/`LIMIT`/`LIKE`/
`DISTINCT ON`), with the pgvector distance operator `<=>` kept abstract as a
function parameter (over `ℤ`-valued vectors and distances: the claims only use
the linear order of the scores, and `ℤ` evaluates inside the kernel).  External model calls are oracle inputs to the orchestrator.
-/

/-- JS `String.prototype.trim` whitespace test (ASCII fragment; the route only
trims model output and queries). -/
def isJsWs (c : Char) : Bool :=
  c = ' ' || c = '\t' || c = '\n' || c = '\r'

/-- JS `s.trim()` on char lists. -/
def jsTrim (s : List Char) : List Char :=
  ((s.dropWhile isJsWs).reverse.dropWhile isJsWs).reverse

/-- JS `s.toUpperCase()` on char lists (ASCII). -/
def jsToUpper (s : List Char) : List Char :=
  s.map Char.toUpper

/-- JS `s.toLowerCase()` on char lists (ASCII). -/
def jsToLower (s : List Char) : List Char :=
  s.map Char.toLower

/-- Auxiliary for `splitCh`: accumulate the current field (reversed). -/
def splitChAux (sep : Char) : List Char → List Char → List (List Char)
  | [], acc => [acc.reverse]
  | c :: cs, acc =>
    if c = sep then acc.reverse :: splitChAux sep cs []
    else splitChAux sep cs (c :: acc)

/-- JS `s.split(sep)` for a single-character separator. -/
def splitCh (sep : Char) (s : List Char) : List (List Char) :=
  splitChAux sep s []

/-- JS numeric coercion `+s` restricted to the digit-only strings the tag
matcher produces (`\d{2}` capture groups are always decimal digits). -/
def toNatD (cs : List Char) : Nat :=
  cs.foldl (fun n ch => 10 * n + (ch.toNat - 48)) 0

/-- Drop an exact literal from the front of a char list; `none` when the
literal is not there.  Embeds matching a literal piece of the regex. -/
def dropPref : List Char → List Char → Option (List Char)
  | [], s => some s
  | _ :: _, [] => none
  | p :: ps, c :: cs => if p = c then dropPref ps cs else none

/-- JS `s.replace(pat, repl)` for a plain-string pattern: replaces the first
occurrence only. -/
def replaceFirst (pat repl : List Char) : List Char → List Char
  | [] => []
  | c :: cs =>
    if pat.isPrefixOf (c :: cs) then repl ++ (c :: cs).drop pat.length
    else c :: replaceFirst pat repl cs

/-- Fuelled core of the PostgreSQL `LIKE` matcher: `%` matches any sequence,
`_` any single character, backslash escapes the next pattern character.  The
fuel is only a structural-recursion device; `likeM` always supplies enough. -/
def likeMF : Nat → List Char → List Char → Bool
  | 0, _, _ => false
  | _ + 1, [], t => t.isEmpty
  | fuel + 1, '%' :: ps, [] => likeMF fuel ps []
  | fuel + 1, '%' :: ps, c :: cs =>
    likeMF fuel ps (c :: cs) || likeMF fuel ('%' :: ps) cs
  | _ + 1, '_' :: _, [] => false
  | fuel + 1, '_' :: ps, _ :: cs => likeMF fuel ps cs
  | _ + 1, '\\' :: [], _ => false
  | fuel + 1, '\\' :: p :: ps, c :: cs => p = c && likeMF fuel ps cs
  | _ + 1, '\\' :: _ :: _, [] => false
  | _ + 1, _ :: _, [] => false
  | fuel + 1, p :: ps, c :: cs => p = c && likeMF fuel ps cs

/-- PostgreSQL `pattern LIKE text` (pattern first argument). -/
def likeM (p t : List Char) : Bool :=
  likeMF (p.length + t.length + 1) p t

/-- Bool-valued "occurs as a contiguous substring" check. -/
def infixCheck (pat s : List Char) : Bool :=
  (List.range (s.length + 1)).any fun i => pat.isPrefixOf (s.drop i)

/-- JS `Array.prototype.map((x, i) => …)` with an explicit starting index. -/
def mapWithIdx (f : Nat → α → β) : Nat → List α → List β
  | _, [] => []
  | i, a :: as => f i a :: mapWithIdx f (i + 1) as

/-- Insert into a list sorted by the boolean relation `le` (stable). -/
def insertLe (le : α → α → Bool) (a : α) : List α → List α
  | [] => [a]
  | b :: bs => if le a b then a :: b :: bs else b :: insertLe le a bs

/-- Stable insertion sort by the boolean relation `le`: embeds the
deterministic refinement of SQL `ORDER BY` used throughout. -/
def sortLe (le : α → α → Bool) : List α → List α
  | [] => []
  | a :: as => insertLe le a (sortLe le as)

section SortLemmas

variable {α : Type} (le : α → α → Bool)

theorem mem_insertLe {a x : α} : ∀ {l : List α}, x ∈ insertLe le a l ↔ x = a ∨ x ∈ l
  | [] => by simp [insertLe]
  | b :: bs => by
    by_cases h : le a b = true
    · simp [insertLe, h]
    · simp only [insertLe, if_neg h, List.mem_cons, mem_insertLe]
      tauto

theorem mem_sortLe {x : α} : ∀ {l : List α}, x ∈ sortLe le l ↔ x ∈ l
  | [] => Iff.rfl
  | a :: as => by
    simp only [sortLe, mem_insertLe, List.mem_cons, mem_sortLe]

theorem pairwise_insertLe
    (htot : ∀ x y : α, le x y = false → le y x = true)
    (htrans : ∀ x y z : α, le x y = true → le y z = true → le x z = true)
    (a : α) :
    ∀ {l : List α}, List.Pairwise (fun x y => le x y = true) l →
      List.Pairwise (fun x y => le x y = true) (insertLe le a l)
  | [], _ => by simp [insertLe]
  | b :: bs, h => by
    rcases List.pairwise_cons.mp h with ⟨hb, hbs⟩
    by_cases hab : le a b = true
    · rw [insertLe, if_pos hab]
      refine List.pairwise_cons.mpr ⟨?_, h⟩
      intro y hy
      rcases List.mem_cons.mp hy with rfl | hy
      · exact hab
      · exact htrans a b y hab (hb y hy)
    · rw [insertLe, if_neg hab]
      refine List.pairwise_cons.mpr ⟨?_, pairwise_insertLe htot htrans a hbs⟩
      intro y hy
      rcases (mem_insertLe le).mp hy with h | hy
      · rw [h]
        exact htot a b (Bool.eq_false_iff.mpr hab)
      · exact hb y hy

theorem pairwise_sortLe
    (htot : ∀ x y : α, le x y = false → le y x = true)
    (htrans : ∀ x y z : α, le x y = true → le y z = true → le x z = true) :
    ∀ l : List α, List.Pairwise (fun x y => le x y = true) (sortLe le l)
  | [] => List.Pairwise.nil
  | a :: as => pairwise_insertLe le htot htrans a (pairwise_sortLe htot htrans as)

end SortLemmas

/-! ## Data model (route.ts interfaces `Document`, `VideoReference`, `Product`) -/

/-- A stored row of the vector table; `vector` is `none` for a SQL NULL
embedding (filtered out by `WHERE vector IS NOT NULL`). -/
structure DbRow where
  id : String
  text : String
  title : String
  url : String
  chunk_id : String
  vector : Option (List ℤ)
deriving DecidableEq, Repr

/-- route.ts `interface Document`. -/
structure Document where
  id : String
  text : String
  title : String
  url : String
  chunk_id : String
  similarity_score : ℤ
deriving DecidableEq, Repr

/-- A stored row of the `products` table: `tags` is the raw comma-separated
string column the SQL `LIKE` runs against. -/
structure ProductRow where
  id : String
  title : String
  tags : String
  link : String
deriving DecidableEq, Repr

/-- route.ts `interface Product` (tags split into a list by the JS layer). -/
structure Product where
  id : String
  link : String
  tags : List String
  title : String
deriving DecidableEq, Repr

/-- route.ts `interface VideoReference`. -/
structure VideoReference where
  description : String
  timestamp : String
  urls : List String
  video_title : String
deriving DecidableEq, Repr

/-- One chat turn (`interface ChatHistory`). -/
structure ChatMsg where
  role : String
  content : String
deriving DecidableEq, Repr

/-! ## Custom error classes (route.ts lines 53-73)

Each JS subclass constructor calls `super(message)` then overwrites `name`
with the subclass name; the classes carry no other state. -/

/-- A JS `Error` value: `name` and `message`. -/
structure JsError where
  name : String
  message : String
deriving DecidableEq, Repr

/-- `class LLMResponseError extends Error`. -/
def LLMResponseError (message : String) : JsError :=
  ⟨"LLMResponseError", message⟩

/-- `class LLMResponseCutOff extends LLMResponseError`. -/
def LLMResponseCutOff (message : String) : JsError :=
  ⟨"LLMResponseCutOff", message⟩

/-- `class LLMNoResponseError extends LLMResponseError`. -/
def LLMNoResponseError (message : String) : JsError :=
  ⟨"LLMNoResponseError", message⟩

/-! ## DatabaseService.searchNeonDb

The SQL
```
SELECT id, text, title, url, chunk_id, 1 - (vector <=> $1::vector) as similarity_score
FROM tableName WHERE vector IS NOT NULL ORDER BY vector <=> $1::vector LIMIT $2
```
filters out NULL embeddings, orders by ascending pgvector distance (stable
refinement of the unspecified tie order) and keeps `topK` rows.  The pgvector
distance operator `<=>` is abstract here (`dist`); the JS serialisation of the
embedding into `[x,…]` and `parseFloat` on the way back are identities in this
model. -/

/-- route.ts `DatabaseService.searchNeonDb` (default `topK = 5`). -/
def searchNeonDb (dist : List ℤ → List ℤ → ℤ) (queryEmbedding : List ℤ)
    (table : List DbRow) (topK : Nat := 5) : List Document :=
  let scored := table.filterMap fun r =>
    r.vector.map fun v => (r, dist v queryEmbedding)
  let sorted := sortLe (fun a b => decide (a.2 ≤ b.2)) scored
  (sorted.take topK).map fun rv =>
    { id := rv.1.id, text := rv.1.text, title := rv.1.title, url := rv.1.url
      chunk_id := rv.1.chunk_id, similarity_score := 1 - rv.2 }

/-- lib/db.ts `DatabaseService.searchNeonDb`: same query, but the default is
`topK = 3` (and `parseFloat(..) || 0`, which is the identity on the non-NaN
scores the query produces). -/
def searchNeonDb_lib (dist : List ℤ → List ℤ → ℤ) (queryEmbedding : List ℤ)
    (table : List DbRow) (topK : Nat := 3) : List Document :=
  let scored := table.filterMap fun r =>
    r.vector.map fun v => (r, dist v queryEmbedding)
  let sorted := sortLe (fun a b => decide (a.2 ≤ b.2)) scored
  (sorted.take topK).map fun rv =>
    { id := rv.1.id, text := rv.1.text, title := rv.1.title, url := rv.1.url
      chunk_id := rv.1.chunk_id, similarity_score := 1 - rv.2 }

/-! ## DatabaseService.getRelatedProducts (route.ts lines 133-178)

```
SELECT DISTINCT ON (p.id) p.id, p.title, p.tags, p.link
FROM products p
WHERE LOWER(p.tags) LIKE LOWER($1) OR … ORDER BY p.id
```
with search terms `%${title.toLowerCase().trim()}%`.  `DISTINCT ON (p.id) …
ORDER BY p.id` keeps, per id, the first row in id order (stable refinement).
Any store error is caught and degrades to `[]`. -/

/-- The SQL search term built from one video title. -/
def searchTermOf (title : String) : List Char :=
  '%' :: jsTrim (jsToLower title.data) ++ ['%']

/-- The `WHERE` clause of the products query for one row. -/
def productRowMatches (videoTitles : List String) (p : ProductRow) : Bool :=
  videoTitles.any fun t =>
    likeM (jsToLower (searchTermOf t)) (jsToLower p.tags.data)

/-- `DISTINCT ON (id)` over a list already ordered by id: drop rows whose id
already appeared (adjacent after sorting). -/
def distinctAux (prev : String) : List ProductRow → List ProductRow
  | [] => []
  | q :: qs => if q.id = prev then distinctAux prev qs else q :: distinctAux q.id qs

/-- `DISTINCT ON (id)` on an id-sorted list. -/
def distinctOnId : List ProductRow → List ProductRow
  | [] => []
  | p :: ps => p :: distinctAux p.id ps

/-- The JS formatting of a returned row:
`tags?.split(',').map(tag => tag.trim()) || []`. -/
def formatProduct (p : ProductRow) : Product :=
  { id := p.id, title := p.title, link := p.link
    tags := (splitCh ',' p.tags.data).map fun t => String.mk (jsTrim t) }

/-- route.ts `DatabaseService.getRelatedProducts`.  The `store` argument is the
outcome of talking to the relational store: `.error` for any thrown
connection/query error (caught, degrades to `[]`), `.ok table` for the
`products` table contents. -/
def getRelatedProducts (videoTitles : List String)
    (store : Except Unit (List ProductRow)) : List Product :=
  if videoTitles.isEmpty then []
  else
    match store with
    | .error _ => []
    | .ok table =>
      let matched := table.filter (productRowMatches videoTitles)
      let rows := distinctOnId (sortLe (fun a b => decide (a.id ≤ b.id)) matched)
      rows.map formatProduct

/-! ## Relevance classifier post-processing (route.ts `checkRelevance`)

The upstream model call is an oracle: `content` is
`result.choices[0].message.content` (`none` for a JS null).  The function
returns `content?.trim().toUpperCase() || 'NOT_RELEVANT'`. -/

/-- route.ts `checkRelevance`, as a function of the model's reply. -/
def checkRelevance (content : Option String) : String :=
  match content with
  | none => "NOT_RELEVANT"
  | some c =>
    let u := String.mk (jsToUpper (jsTrim c.data))
    if u = "" then "NOT_RELEVANT" else u

/-! ## Query rewriter (route.ts `rewriteQuery`)

`upstream` is the outcome of the model call: `.error` for a thrown error
(caught, falls back to the original query), `.ok content` for a reply whose
text is `content` (`none` for a JS null).  The body computes
`content?.replace("Rewritten query:", "").trim()` and returns
`cleanedResponse || query`. -/

/-- route.ts `rewriteQuery`, as a function of the model call's outcome. -/
def rewriteQuery (query : String) (upstream : Except Unit (Option String)) : String :=
  match upstream with
  | .error _ => query
  | .ok none => query
  | .ok (some c) =>
    let cleaned := String.mk (jsTrim (replaceFirst "Rewritten query:".data [] c.data))
    if cleaned = "" then query else cleaned

/-! ## Video reference extraction (route.ts lines 238-289)

`processVideoReferences` scans the generator output with

`/\{\{timestamp:(\d{2}:\d{2})\}\}\{\{title:([^}]+)\}\}\{\{url:([^}]+)\}\}/g`

With this pattern the JS regex engine is deterministic at each start index
(the `[^}]+` groups can never backtrack usefully because `\}` never matches a
non-brace), so `matchAll` is: try the pattern at each index, and after a match
resume right after it.  `matchTriple` is the single-attempt matcher returning
the three capture groups and the rest of the input. -/

/-- The three capture groups of one regex match. -/
structure TagMatch where
  timestamp : String
  title : String
  url : String
deriving DecidableEq, Repr

/-- The timestamp group `(\d{2}:\d{2})`: two digits, a colon, two digits. -/
def matchTs : List Char → Option ((Char × Char × Char × Char) × List Char)
  | a :: b :: c :: d :: e :: s₂ =>
    if a.isDigit && b.isDigit && c = ':' && d.isDigit && e.isDigit then
      some ((a, b, d, e), s₂)
    else none
  | _ => none

/-- A `([^}]+)` capture group: the maximal nonempty run of non-`}` characters
(the regex engine cannot backtrack into it, since `\}` never matches a
non-brace). -/
def grabGroup (s : List Char) : Option (List Char × List Char) :=
  let g := s.takeWhile (· ≠ '}')
  if g.isEmpty then none else some (g, s.dropWhile (· ≠ '}'))

/-- Attempt the video-tag regex
`\{\{timestamp:(\d{2}:\d{2})\}\}\{\{title:([^}]+)\}\}\{\{url:([^}]+)\}\}`
at the head of the input, returning the capture groups and the remaining
input after the match. -/
def matchTriple (s : List Char) : Option (TagMatch × List Char) := do
  let s₁ ← dropPref "\x7b\x7btimestamp:".data s
  let ((a, b, d, e), s₂) ← matchTs s₁
  let s₃ ← dropPref "\x7d\x7d\x7b\x7btitle:".data s₂
  let (title, u₃) ← grabGroup s₃
  let s₄ ← dropPref "\x7d\x7d\x7b\x7burl:".data u₃
  let (url, u₄) ← grabGroup s₄
  let rest ← dropPref "\x7d\x7d".data u₄
  pure (⟨String.mk [a, b, ':', d, e], String.mk title, String.mk url⟩, rest)

/-- `matchAll` scan; the fuel (initially the input length) only bounds the
recursion and never runs out, since every step consumes at least one char. -/
def scanAux : Nat → List Char → List TagMatch
  | 0, _ => []
  | _ + 1, [] => []
  | fuel + 1, c :: cs =>
    match matchTriple (c :: cs) with
    | some (m, rest) => m :: scanAux fuel rest
    | none => scanAux fuel cs

/-- All matches of the video-tag pattern, in order of appearance. -/
def scanTriples (s : List Char) : List TagMatch :=
  scanAux s.length s

/-- The body of the `matches.map((match, i) => …)` callback: seconds from
`timestamp.split(':').reduce((acc, time) => (60 * acc) + +time, 0)`, separator
from `url.includes('?') ? '&' : '?'`, deep link `${url}${separator}t=${seconds}`. -/
def mkVideoRef (m : TagMatch) : VideoReference :=
  let seconds := (splitCh ':' m.timestamp.data).foldl (fun acc t => 60 * acc + toNatD t) 0
  let sep := if m.url.data.contains '?' then "&" else "?"
  { urls := [m.url ++ sep ++ "t=" ++ toString seconds]
    timestamp := m.timestamp
    video_title := m.title
    description := "" }

/-- route.ts `processVideoReferences`: the returned pair is
`(processedAnswer, videoDict)`; the dict `Object.fromEntries(matches.map((m, i)
=> [i.toString(), …]))` is embedded as the association list in entry order
(its keys `"0"`, `"1"`, … are pairwise distinct, so no entry overwrites
another). -/
def processVideoReferences (content : String) :
    String × List (String × VideoReference) :=
  (content, mapWithIdx (fun i m => (toString i, mkVideoRef m)) 0 (scanTriples content.data))

/-- route.ts `combineUrlAndTimestamp` (defined in the source but never called
by `processVideoReferences`, which inlines its own conversion).  `parseInt` of
a digit string is embedded by `toNatD`; a two-part timestamp gives
`MM*60 + SS`, any other shape is treated as the three-part
`HH*3600 + MM*60 + SS` (the function is only ever documented for those two). -/
def combineUrlAndTimestamp (url timestamp : String) : String :=
  let parts := splitCh ':' timestamp.data
  let totalSeconds :=
    if parts.length = 2 then
      toNatD (parts.headD []) * 60 + toNatD ((parts.drop 1).headD [])
    else
      toNatD (parts.headD []) * 3600 + toNatD ((parts.drop 1).headD []) * 60 +
        toNatD ((parts.drop 2).headD [])
  let sep := if url.data.contains '?' then "&" else "?"
  url ++ sep ++ "t=" ++ toString totalSeconds

/-! ## The POST orchestrator (route.ts lines 321-448)

External collaborators are oracle inputs: the classifier's reply text, the
rewriter call's outcome, the embedding call's outcome, the vector table and
its distance operator, the video-extraction model's reply text, and the
products store.  The three short-circuit branches stream a small canned model
call and return it as the response; the full pipeline returns the JSON object
`{ videoReferences, relatedProducts }`.  Any error thrown inside the handler
is caught by the single `catch` and surfaced as one generic 500 response. -/

/-- Which canned short-circuit prompt was streamed. -/
inductive CannedKind
  | greeting
  | inappropriate
  | notRelevant
deriving DecidableEq, Repr

/-- The caller-visible outcome of one `POST` request. -/
inductive ApiResponse
  /-- A streamed canned response (`result.toDataStreamResponse()`); it carries
  no `videoReferences` or `relatedProducts` fields. -/
  | streamed (kind : CannedKind)
  /-- The JSON body `{ videoReferences, relatedProducts }`. -/
  | json (videoReferences : List (String × VideoReference)) (relatedProducts : List Product)
  /-- The generic catch-all 500 body `{ error: 'An error occurred', message }`. -/
  | errorResp (message : String)
deriving DecidableEq, Repr

/-- The `videoReferences` of a response (empty when the response has none). -/
def ApiResponse.videoRefs : ApiResponse → List (String × VideoReference)
  | .json v _ => v
  | _ => []

/-- The `relatedProducts` of a response (empty when the response has none). -/
def ApiResponse.products : ApiResponse → List Product
  | .json _ p => p
  | _ => []

/-- Whether the response is one of the canned short-circuit streams. -/
def ApiResponse.isCanned : ApiResponse → Bool
  | .streamed _ => true
  | _ => false

/-- Outcomes of the external collaborators consumed by one `POST` request. -/
structure Oracles where
  /-- Reply text of the relevance-classification model call. -/
  relevanceContent : Option String
  /-- Outcome of the query-rewrite model call. -/
  rewriteUpstream : Except Unit (Option String)
  /-- Outcome of the embedding call (`.error` = throw/timeout). -/
  embedResult : Except Unit (List ℤ)
  /-- pgvector distance operator of the vector store. -/
  dist : List ℤ → List ℤ → ℤ
  /-- Contents of the `bents` vector table. -/
  dbTable : List DbRow
  /-- Reply text of the video-extraction model call
  (`videoResponse.choices[0].message.content`). -/
  generatorContent : Option String
  /-- Outcome of the products store (`.error` = any thrown store error). -/
  productTable : Except Unit (List ProductRow)

/-- route.ts `POST`.  `messages` is `body.messages`; `lastUserMessage` is the
content of the last user turn (`''` when there is none). -/
def POST (messages : List ChatMsg) (o : Oracles) : ApiResponse :=
  let lastUserMessage :=
    ((messages.reverse.find? fun m => m.role = "user").map ChatMsg.content).getD ""
  let relevanceResult := checkRelevance o.relevanceContent
  if relevanceResult = "GREETING" then .streamed .greeting
  else if relevanceResult = "INAPPROPRIATE" then .streamed .inappropriate
  else if relevanceResult = "NOT_RELEVANT" then .streamed .notRelevant
  else
    -- The rewritten query and retrieved documents only feed the prompts of
    -- the embedding and generation calls, whose outcomes are oracles here.
    let _rewrittenQuery := rewriteQuery lastUserMessage o.rewriteUpstream
    match o.embedResult with
    | .error _ => .errorResp "An error occurred"
    | .ok embedding =>
      let _similarDocs := searchNeonDb o.dist embedding o.dbTable 5
      let content := o.generatorContent.getD ""
      let videoDict := (processVideoReferences content).2
      let videoTitles := videoDict.map fun kv => kv.2.video_title
      let relatedProducts := getRelatedProducts videoTitles o.productTable
      .json videoDict relatedProducts

/-! ## The spec's matching rule, for refinement comparison (claim C5)

The spec states the product-matching rule per tag: "a product matches if ANY
of its tags contains ANY of the given video titles as a case-insensitive
substring".  This definition follows the spec's words (tags are the split,
trimmed tag list of the product), to be compared against the SQL semantics
`productRowMatches`, which runs `LIKE` over the raw comma-joined tags column. -/

/-- Modelled from the spec: per-tag case-insensitive substring matching. -/
def specTagMatch (videoTitles : List String) (p : ProductRow) : Bool :=
  ((splitCh ',' p.tags.data).map jsTrim).any fun tag =>
    videoTitles.any fun t => infixCheck (jsToLower t.data) (jsToLower tag)

/-! ## Inversion lemmas for the tag matcher -/

theorem dropPref_eq : ∀ {p s t : List Char}, dropPref p s = some t → s = p ++ t
  | [], s, t, h => by simpa [dropPref] using h
  | p :: ps, [], t, h => by simp [dropPref] at h
  | p :: ps, c :: cs, t, h => by
    rw [dropPref] at h
    split at h
    · next heq => simpa [heq] using dropPref_eq h
    · exact absurd h (by simp)

theorem matchTs_some {s : List Char} {a b d e : Char} {s₂ : List Char}
    (h : matchTs s = some ((a, b, d, e), s₂)) :
    a.isDigit = true ∧ b.isDigit = true ∧ d.isDigit = true ∧ e.isDigit = true ∧
    s = a :: b :: ':' :: d :: e :: s₂ := by
  match s, h with
  | x :: y :: z :: u :: v :: s', h => ?_
  rw [matchTs] at h
  split at h
  · next hguard =>
    simp only [Option.some.injEq, Prod.mk.injEq] at h
    obtain ⟨⟨rfl, rfl, rfl, rfl⟩, rfl⟩ := h
    simp only [Bool.and_eq_true, decide_eq_true_eq] at hguard
    obtain ⟨⟨⟨⟨ha, hb⟩, hc⟩, hd⟩, he⟩ := hguard
    exact ⟨ha, hb, hd, he, by rw [hc]⟩
  · exact absurd h (by simp)

theorem grabGroup_some {s g t : List Char} (h : grabGroup s = some (g, t)) :
    g ≠ [] ∧ (∀ ch ∈ g, ch ≠ '}') ∧ s = g ++ t := by
  rw [grabGroup] at h
  split at h
  · exact absurd h (by simp)
  · next hne =>
    simp only [Option.some.injEq, Prod.mk.injEq] at h
    obtain ⟨rfl, rfl⟩ := h
    refine ⟨by simpa [List.isEmpty_iff] using hne, ?_,
      (List.takeWhile_append_dropWhile _ _).symm⟩
    intro ch hch
    simpa using List.mem_takeWhile_imp hch

/-- Full inversion of one successful regex attempt: the capture groups are a
well-formed timestamp and nonempty brace-free title/url, and the input splits
into the exact matched text followed by the rest. -/
theorem matchTriple_some {s : List Char} {m : TagMatch} {rest : List Char}
    (h : matchTriple s = some (m, rest)) :
    ∃ a b d e title url,
      a.isDigit = true ∧ b.isDigit = true ∧ d.isDigit = true ∧ e.isDigit = true ∧
      m = ⟨String.mk [a, b, ':', d, e], String.mk title, String.mk url⟩ ∧
      title ≠ [] ∧ (∀ ch ∈ title, ch ≠ '}') ∧ url ≠ [] ∧ (∀ ch ∈ url, ch ≠ '}') ∧
      s = "\x7b\x7btimestamp:".data ++ (a :: b :: ':' :: d :: e ::
          ("\x7d\x7d\x7b\x7btitle:".data ++ (title ++
          ("\x7d\x7d\x7b\x7burl:".data ++ (url ++ ("\x7d\x7d".data ++ rest)))))) := by
  simp only [matchTriple, bind, Option.bind_eq_some, pure, Option.some.injEq] at h
  obtain ⟨s₁, hs₁, ⟨⟨a, b, d, e⟩, s₂⟩, hts, s₃, hs₃, ⟨title, u₃⟩, htitle, s₄, hs₄,
    ⟨url, u₄⟩, hurl, r, hr, hpair⟩ := h
  obtain ⟨hm, hrest⟩ := Prod.mk.injEq .. ▸ hpair
  obtain ⟨ha, hb, hd, he, hs₁eq⟩ := matchTs_some hts
  dsimp only at hs₃ hs₄ hr hm
  obtain ⟨htne, htbr, hteq⟩ := grabGroup_some htitle
  obtain ⟨hune, hubr, hueq⟩ := grabGroup_some hurl
  refine ⟨a, b, d, e, title, url, ha, hb, hd, he, hm.symm, htne, htbr, hune, hubr, ?_⟩
  rw [dropPref_eq hs₁, hs₁eq, dropPref_eq hs₃, hteq, dropPref_eq hs₄, hueq,
    dropPref_eq hr, hrest]

/-- The invariant every extracted match satisfies. -/
def GoodMatch (m : TagMatch) : Prop :=
  (∃ a b d e : Char, a.isDigit = true ∧ b.isDigit = true ∧ d.isDigit = true ∧
    e.isDigit = true ∧ m.timestamp = String.mk [a, b, ':', d, e]) ∧
  m.title.data ≠ [] ∧ (∀ ch ∈ m.title.data, ch ≠ '}') ∧
  m.url.data ≠ [] ∧ (∀ ch ∈ m.url.data, ch ≠ '}')

theorem matchTriple_good {s : List Char} {m : TagMatch} {rest : List Char}
    (h : matchTriple s = some (m, rest)) : GoodMatch m := by
  obtain ⟨a, b, d, e, title, url, ha, hb, hd, he, rfl, htne, htbr, hune, hubr, -⟩ :=
    matchTriple_some h
  exact ⟨⟨a, b, d, e, ha, hb, hd, he, rfl⟩, htne, htbr, hune, hubr⟩

theorem scanAux_good : ∀ (fuel : Nat) (s : List Char), ∀ m ∈ scanAux fuel s, GoodMatch m
  | 0, _ => by simp [scanAux]
  | _ + 1, [] => by simp [scanAux]
  | fuel + 1, c :: cs => by
    intro m hm
    rw [scanAux] at hm
    cases hmt : matchTriple (c :: cs) with
    | none =>
      rw [hmt] at hm
      exact scanAux_good fuel cs m hm
    | some pr =>
      obtain ⟨m', rest⟩ := pr
      rw [hmt] at hm
      rcases List.mem_cons.mp hm with rfl | hm
      · exact matchTriple_good hmt
      · exact scanAux_good fuel rest m hm

/-- Any successful match needs the literal `{{url:` somewhere in its input. -/
theorem matchTriple_url_occurs {s : List Char} {m : TagMatch} {rest : List Char}
    (h : matchTriple s = some (m, rest)) : "\x7b\x7burl:".data <:+: s := by
  obtain ⟨a, b, d, e, title, url, -, -, -, -, -, -, -, -, -, hs⟩ := matchTriple_some h
  refine ⟨"\x7b\x7btimestamp:".data ++ (a :: b :: ':' :: d :: e :: ("\x7d\x7d\x7b\x7btitle:".data ++
    (title ++ "\x7d\x7d".data))), url ++ ("\x7d\x7d".data ++ rest), ?_⟩
  rw [hs]
  simp [List.append_assoc]

theorem scanAux_no_url : ∀ (fuel : Nat) (s : List Char),
    ¬ ("\x7b\x7burl:".data <:+: s) → scanAux fuel s = []
  | 0, _, _ => rfl
  | _ + 1, [], _ => rfl
  | fuel + 1, c :: cs, h => by
    rw [scanAux]
    cases hmt : matchTriple (c :: cs) with
    | some pr =>
      obtain ⟨m', rest'⟩ := pr
      exact absurd (matchTriple_url_occurs hmt) h
    | none =>
      refine scanAux_no_url fuel cs fun hi => h ?_
      obtain ⟨t, u, rfl⟩ := hi
      exact ⟨c :: t, u, rfl⟩

theorem mapWithIdx_length (f : Nat → α → β) : ∀ (n : Nat) (l : List α),
    (mapWithIdx f n l).length = l.length
  | _, [] => rfl
  | n, a :: as => by simp [mapWithIdx, mapWithIdx_length f (n + 1) as]

theorem mapWithIdx_getElem? (f : Nat → α → β) : ∀ (n : Nat) (l : List α) (i : Nat),
    (mapWithIdx f n l)[i]? = (l[i]?).map (f (n + i))
  | _, [], _ => by simp [mapWithIdx]
  | n, a :: as, 0 => by simp [mapWithIdx]
  | n, a :: as, i + 1 => by
    simpa [mapWithIdx, Nat.add_assoc, Nat.add_comm 1 i] using
      mapWithIdx_getElem? f (n + 1) as i

theorem isDigit_ne_colon {c : Char} (h : c.isDigit = true) : ¬ c = ':' := by
  intro heq
  rw [heq] at h
  exact absurd h (by decide)

/-- The inlined `reduce` of the extractor on a matched `MM:SS` timestamp. -/
theorem seconds_mmss {a b d e : Char} (ha : ¬ a = ':') (hb : ¬ b = ':')
    (hd : ¬ d = ':') (he : ¬ e = ':') :
    (splitCh ':' [a, b, ':', d, e]).foldl (fun acc t => 60 * acc + toNatD t) 0
      = 60 * (10 * (a.toNat - 48) + (b.toNat - 48)) +
          (10 * (d.toNat - 48) + (e.toNat - 48)) := by
  simp [splitCh, splitChAux, ha, hb, hd, he, toNatD]

/-! ## Orchestrator and store helper lemmas -/

/-- Any store error in `getRelatedProducts` is caught and degrades to `[]`. -/
theorem getRelatedProducts_error (videoTitles : List String) :
    getRelatedProducts videoTitles (.error ()) = [] := by
  rw [getRelatedProducts]
  split <;> rfl

/-- On the full-pipeline path (no short-circuit label, embedding succeeded),
`POST` returns the JSON body built from extraction and product matching. -/
theorem POST_pipeline (messages : List ChatMsg) (o : Oracles)
    (h1 : checkRelevance o.relevanceContent ≠ "GREETING")
    (h2 : checkRelevance o.relevanceContent ≠ "INAPPROPRIATE")
    (h3 : checkRelevance o.relevanceContent ≠ "NOT_RELEVANT")
    (e : List ℤ) (he : o.embedResult = .ok e) :
    POST messages o = .json (processVideoReferences (o.generatorContent.getD "")).2
      (getRelatedProducts
        ((processVideoReferences (o.generatorContent.getD "")).2.map fun kv => kv.2.video_title)
        o.productTable) := by
  simp only [POST, if_neg h1, if_neg h2, if_neg h3, he]

theorem scored_filter (dist : List ℤ → List ℤ → ℤ) (q : List ℤ) : ∀ table : List DbRow,
    (table.filter fun r => r.vector.isSome).filterMap
        (fun r => r.vector.map fun v => (r, dist v q))
      = table.filterMap (fun r => r.vector.map fun v => (r, dist v q))
  | [] => rfl
  | r :: rs => by
    cases hv : r.vector <;>
      simp [hv, List.filter_cons, scored_filter dist q rs]

theorem mem_distinctAux_sub : ∀ {prev : String} {l : List ProductRow} {x : ProductRow},
    x ∈ distinctAux prev l → x ∈ l
  | _, [], _, h => absurd h (List.not_mem_nil _)
  | prev, q :: qs, x, h => by
    rw [distinctAux] at h
    split at h
    · exact List.mem_cons_of_mem q (mem_distinctAux_sub h)
    · rcases List.mem_cons.mp h with rfl | h
      · exact List.mem_cons_self x qs
      · exact List.mem_cons_of_mem q (mem_distinctAux_sub h)

theorem mem_distinctOnId_sub : ∀ {l : List ProductRow} {x : ProductRow},
    x ∈ distinctOnId l → x ∈ l
  | [], _, h => absurd h (List.not_mem_nil _)
  | p :: ps, x, h => by
    rw [distinctOnId] at h
    rcases List.mem_cons.mp h with rfl | h
    · exact List.mem_cons_self x ps
    · exact List.mem_cons_of_mem p (mem_distinctAux_sub h)

theorem distinctAux_cover : ∀ {prev : String} {l : List ProductRow} {x : ProductRow},
    x ∈ l → x.id = prev ∨ ∃ y ∈ distinctAux prev l, y.id = x.id
  | _, [], _, h => absurd h (List.not_mem_nil _)
  | prev, q :: qs, x, h => by
    rw [distinctAux]
    by_cases hq : q.id = prev
    · rw [if_pos hq]
      rcases List.mem_cons.mp h with rfl | h
      · exact Or.inl hq
      · exact distinctAux_cover h
    · rw [if_neg hq]
      rcases List.mem_cons.mp h with rfl | h
      · exact Or.inr ⟨x, List.mem_cons_self _ _, rfl⟩
      · rcases @distinctAux_cover q.id qs x h with heq | ⟨y, hy, hyid⟩
        · exact Or.inr ⟨q, List.mem_cons_self _ _, heq.symm⟩
        · exact Or.inr ⟨y, List.mem_cons_of_mem q hy, hyid⟩

theorem distinctOnId_cover : ∀ {l : List ProductRow} {x : ProductRow},
    x ∈ l → ∃ y ∈ distinctOnId l, y.id = x.id
  | [], _, h => absurd h (List.not_mem_nil _)
  | p :: ps, x, h => by
    rw [distinctOnId]
    rcases List.mem_cons.mp h with rfl | h
    · exact ⟨x, List.mem_cons_self _ _, rfl⟩
    · rcases @distinctAux_cover p.id ps x h with heq | ⟨y, hy, hyid⟩
      · exact ⟨p, List.mem_cons_self _ _, heq.symm⟩
      · exact ⟨y, List.mem_cons_of_mem p hy, hyid⟩

theorem distinctAux_pairwise : ∀ {prev : String} {l : List ProductRow},
    List.Pairwise (fun a b : ProductRow => a.id ≤ b.id) l → (∀ x ∈ l, prev ≤ x.id) →
      List.Pairwise (fun a b : ProductRow => a.id < b.id) (distinctAux prev l) ∧
        ∀ y ∈ distinctAux prev l, prev < y.id
  | _, [], _, _ => ⟨List.Pairwise.nil, by simp [distinctAux]⟩
  | prev, q :: qs, hsort, hprev => by
    rcases List.pairwise_cons.mp hsort with ⟨hq, hqs⟩
    rw [distinctAux]
    by_cases hqp : q.id = prev
    · rw [if_pos hqp]
      exact distinctAux_pairwise hqs fun x hx => hqp ▸ hq x hx
    · rw [if_neg hqp]
      have hlt : prev < q.id :=
        lt_of_le_of_ne (hprev q (List.mem_cons_self q qs)) fun he => hqp he.symm
      obtain ⟨hpw, hall⟩ := distinctAux_pairwise hqs hq
      refine ⟨List.pairwise_cons.mpr ⟨hall, hpw⟩, ?_⟩
      intro y hy
      rcases List.mem_cons.mp hy with rfl | hy
      · exact hlt
      · exact lt_trans hlt (hall y hy)

theorem distinctOnId_pairwise : ∀ {l : List ProductRow},
    List.Pairwise (fun a b : ProductRow => a.id ≤ b.id) l →
      List.Pairwise (fun a b : ProductRow => a.id < b.id) (distinctOnId l)
  | [], _ => List.Pairwise.nil
  | p :: ps, hsort => by
    rcases List.pairwise_cons.mp hsort with ⟨hp, hps⟩
    rw [distinctOnId]
    obtain ⟨hpw, hall⟩ := distinctAux_pairwise hps hp
    exact List.pairwise_cons.mpr ⟨hall, hpw⟩

/-! ## Claim theorems -/

/-- C1 (amended): for requests whose relevance label is one of the three
checked values GREETING, INAPPROPRIATE, NOT_RELEVANT, the orchestrator's
response is a canned short-circuit stream with empty `videoReferences` and
empty `relatedProducts`, for every conversation history.  (The original
claim's extension to labels outside the four known ones is refuted by
`POST_unknownLabel_counterexample`.) -/
theorem POST_shortCircuit_empty_media (messages : List ChatMsg) (o : Oracles)
    (h : checkRelevance o.relevanceContent = "GREETING" ∨
         checkRelevance o.relevanceContent = "INAPPROPRIATE" ∨
         checkRelevance o.relevanceContent = "NOT_RELEVANT") :
    (POST messages o).videoRefs = [] ∧ (POST messages o).products = [] ∧
    (POST messages o).isCanned = true := by
  rcases h with h | h | h <;>
    simp [POST, h, ApiResponse.videoRefs, ApiResponse.products, ApiResponse.isCanned]

/-- C1 witness: a classifier reply `" greeting "` (trimmed/uppercased to
GREETING) short-circuits with empty media, with a nonempty history present. -/
theorem POST_shortCircuit_empty_media_witness :
    (POST [⟨"user", "how do I cut dovetails?"⟩]
        ⟨some " greeting ", .ok none, .ok [], fun _ _ => 0, [], none, .ok []⟩).videoRefs = [] ∧
    (POST [⟨"user", "how do I cut dovetails?"⟩]
        ⟨some " greeting ", .ok none, .ok [], fun _ _ => 0, [], none, .ok []⟩).products = [] ∧
    (POST [⟨"user", "how do I cut dovetails?"⟩]
        ⟨some " greeting ", .ok none, .ok [], fun _ _ => 0, [], none, .ok []⟩).isCanned = true :=
  POST_shortCircuit_empty_media [⟨"user", "how do I cut dovetails?"⟩]
    ⟨some " greeting ", .ok none, .ok [], fun _ _ => 0, [], none, .ok []⟩
    (Or.inl (by decide))

/-- C1 counterexample: a classifier reply `"Maybe"` yields the label `MAYBE`,
which is not RELEVANT, yet the request is NOT short-circuited: the full
pipeline runs and the response carries a non-empty `videoReferences`.  The
claimed invariant "for every label value ≠ RELEVANT, including any label
outside the four known ones" is therefore false on the code. -/
theorem POST_unknownLabel_counterexample :
    checkRelevance (some "Maybe") = "MAYBE" ∧
    ¬ checkRelevance (some "Maybe") = "RELEVANT" ∧
    (POST [] ⟨some "Maybe", .ok none, .ok [], fun _ _ => 0, [],
        some "\x7b\x7btimestamp:05:30\x7d\x7d\x7b\x7btitle:T\x7d\x7d\x7b\x7burl:https://x\x7d\x7d", .ok []⟩).isCanned = false ∧
    (POST [] ⟨some "Maybe", .ok none, .ok [], fun _ _ => 0, [],
        some "\x7b\x7btimestamp:05:30\x7d\x7d\x7b\x7btitle:T\x7d\x7d\x7b\x7burl:https://x\x7d\x7d", .ok []⟩).videoRefs ≠ [] := by
  decide

/-- C3 (amended): `checkRelevance` trims and uppercases the model reply; a
null or whitespace-only reply yields NOT_RELEVANT, but any other reply is
returned verbatim (uppercased) — an unrecognized reply is NOT mapped to
NOT_RELEVANT, and since `POST` short-circuits only on the three known
non-relevant labels, such a label makes the full pipeline run (no canned
stream). -/
theorem checkRelevance_failClosed_spec (c : String) (messages : List ChatMsg) (o : Oracles) :
    checkRelevance none = "NOT_RELEVANT" ∧
    (jsTrim c.data = [] → checkRelevance (some c) = "NOT_RELEVANT") ∧
    (jsTrim c.data ≠ [] → checkRelevance (some c) = String.mk (jsToUpper (jsTrim c.data))) ∧
    (checkRelevance o.relevanceContent ≠ "GREETING" →
      checkRelevance o.relevanceContent ≠ "INAPPROPRIATE" →
      checkRelevance o.relevanceContent ≠ "NOT_RELEVANT" →
      (POST messages o).isCanned = false) := by
  refine ⟨rfl, ?_, ?_, ?_⟩
  · intro hc
    simp [checkRelevance, hc, jsToUpper]
  · intro hc
    simp only [checkRelevance]
    rw [if_neg]
    simpa [jsToUpper, String.ext_iff] using hc
  · intro h1 h2 h3
    simp only [POST, if_neg h1, if_neg h2, if_neg h3]
    cases o.embedResult <;> simp [ApiResponse.isCanned]

/-- C3 witness: an empty reply defaults to NOT_RELEVANT, and a nonempty reply
is passed through uppercased. -/
theorem checkRelevance_failClosed_spec_witness :
    checkRelevance (some "  ") = "NOT_RELEVANT" ∧
    checkRelevance (some "banana") = String.mk (jsToUpper (jsTrim "banana".data)) ∧
    (POST [] ⟨some "banana", .ok none, .ok [], fun _ _ => 0, [], none, .ok []⟩).isCanned
      = false :=
  ⟨(checkRelevance_failClosed_spec "  " []
      ⟨some "  ", .ok none, .ok [], fun _ _ => 0, [], none, .ok []⟩).2.1 (by decide),
   (checkRelevance_failClosed_spec "banana" []
      ⟨some "banana", .ok none, .ok [], fun _ _ => 0, [], none, .ok []⟩).2.2.1 (by decide),
   (checkRelevance_failClosed_spec "banana" []
      ⟨some "banana", .ok none, .ok [], fun _ _ => 0, [], none, .ok []⟩).2.2.2
     (by decide) (by decide) (by decide)⟩

/-- C3 counterexample: the model reply `"banana"` is returned as the label
`BANANA`, which is outside the four known labels, and the full retrieval
pipeline runs (non-canned JSON response with media), refuting "any output
that does not match a known label yields NOT_RELEVANT" and "an unrecognized
classifier output never causes the full retrieval pipeline to run". -/
theorem checkRelevance_unrecognized_counterexample :
    checkRelevance (some "banana") = "BANANA" ∧
    ¬ ("BANANA" = "GREETING" ∨ "BANANA" = "RELEVANT" ∨
       "BANANA" = "INAPPROPRIATE" ∨ "BANANA" = "NOT_RELEVANT") ∧
    (POST [] ⟨some "banana", .ok none, .ok [], fun _ _ => 0, [],
        some "\x7b\x7btimestamp:05:30\x7d\x7d\x7b\x7btitle:T\x7d\x7d\x7b\x7burl:https://x\x7d\x7d", .ok []⟩).isCanned = false ∧
    (POST [] ⟨some "banana", .ok none, .ok [], fun _ _ => 0, [],
        some "\x7b\x7btimestamp:05:30\x7d\x7d\x7b\x7btitle:T\x7d\x7d\x7b\x7burl:https://x\x7d\x7d", .ok []⟩).videoRefs ≠ [] := by
  decide

/-- C6 (amended): `rewriteQuery` never fails the overall request: on a thrown
upstream error, on a null reply, and on a reply that cleans to the empty
string, it returns the caller's original question unchanged; consequently its
result is non-empty whenever the original question is non-empty.  (The
original claim's unconditional "never returns a null/empty result" is refuted
by `rewriteQuery_empty_counterexample`: an empty original question is
returned as the empty string.) -/
theorem rewriteQuery_fallback (query : String) (upstream : Except Unit (Option String)) :
    (upstream = .error () → rewriteQuery query upstream = query) ∧
    (upstream = .ok none → rewriteQuery query upstream = query) ∧
    (∀ c, upstream = .ok (some c) →
      String.mk (jsTrim (replaceFirst "Rewritten query:".data [] c.data)) = "" →
      rewriteQuery query upstream = query) ∧
    (query ≠ "" → rewriteQuery query upstream ≠ "") := by
  refine ⟨?_, ?_, ?_, ?_⟩
  · rintro rfl; rfl
  · rintro rfl; rfl
  · rintro c rfl hempty
    simp [rewriteQuery, hempty]
  · intro hq
    match upstream with
    | .error () => simpa [rewriteQuery] using hq
    | .ok none => simpa [rewriteQuery] using hq
    | .ok (some c) =>
      by_cases hcl : String.mk (jsTrim (replaceFirst "Rewritten query:".data [] c.data)) = ""
      · simpa [rewriteQuery, hcl] using hq
      · simp only [rewriteQuery]
        rw [if_neg hcl]
        exact hcl

/-- C6 witness: a thrown rewrite error falls back to the original nonempty
question, and the result is nonempty. -/
theorem rewriteQuery_fallback_witness :
    rewriteQuery "saw" (.error ()) = "saw" ∧ rewriteQuery "saw" (.error ()) ≠ "" :=
  ⟨(rewriteQuery_fallback "saw" (.error ())).1 rfl,
   (rewriteQuery_fallback "saw" (.error ())).2.2.2 (by decide)⟩

/-- C6 counterexample: with an empty original question and a failing upstream
call, `rewriteQuery` returns the empty string — so "never returns a
null/empty result" is false as stated (the fallback "returns the original
question unchanged" is what actually holds). -/
theorem rewriteQuery_empty_counterexample :
    rewriteQuery "" (Except.error ()) = "" := rfl

/-- C7: a store error during product matching never aborts the overall
response: `getRelatedProducts` catches it and degrades to an empty product
list, while the response stays a success whose `videoReferences` are exactly
the extraction output and are unaffected by the products store outcome. -/
theorem productFailure_degrades (messages : List ChatMsg) (o : Oracles)
    (st : Except Unit (List ProductRow))
    (h1 : checkRelevance o.relevanceContent ≠ "GREETING")
    (h2 : checkRelevance o.relevanceContent ≠ "INAPPROPRIATE")
    (h3 : checkRelevance o.relevanceContent ≠ "NOT_RELEVANT")
    (e : List ℤ) (he : o.embedResult = .ok e) :
    POST messages { o with productTable := .error () } =
      .json (processVideoReferences (o.generatorContent.getD "")).2 [] ∧
    (POST messages { o with productTable := st }).videoRefs =
      (POST messages o).videoRefs := by
  constructor
  · rw [POST_pipeline messages { o with productTable := .error () } h1 h2 h3 e he]
    rw [getRelatedProducts_error]
  · rw [POST_pipeline messages { o with productTable := st } h1 h2 h3 e he,
      POST_pipeline messages o h1 h2 h3 e he]
    rfl

/-- C7 witness: with a relevant label and a failing products store, the
response is a success carrying the extracted video reference and an empty
product list. -/
theorem productFailure_degrades_witness :
    POST [] ⟨some "RELEVANT", .ok none, .ok [], fun _ _ => 0, [],
        some "\x7b\x7btimestamp:05:30\x7d\x7d\x7b\x7btitle:T\x7d\x7d\x7b\x7burl:https://x\x7d\x7d", .error ()⟩ =
      .json (processVideoReferences
        ((some "\x7b\x7btimestamp:05:30\x7d\x7d\x7b\x7btitle:T\x7d\x7d\x7b\x7burl:https://x\x7d\x7d").getD "")).2 [] :=
  (productFailure_degrades []
      ⟨some "RELEVANT", .ok none, .ok [], fun _ _ => 0, [],
        some "\x7b\x7btimestamp:05:30\x7d\x7d\x7b\x7btitle:T\x7d\x7d\x7b\x7burl:https://x\x7d\x7d", .ok []⟩
      (.ok []) (by decide) (by decide) (by decide) [] rfl).1

/-- C8 (amended): the two generation-failure subtypes exist and are
distinguishable by their `name` fields, but the handler never raises them:
with a relevant label, an upstream video-extraction call that returns no
content at all produces a SUCCESSFUL response with empty `videoReferences`
(no "no-response" error), and the only error the caller ever sees is the
single generic catch-all body. -/
theorem generationFailure_boundary (msg : String) (messages : List ChatMsg) (o : Oracles)
    (h1 : checkRelevance o.relevanceContent ≠ "GREETING")
    (h2 : checkRelevance o.relevanceContent ≠ "INAPPROPRIATE")
    (h3 : checkRelevance o.relevanceContent ≠ "NOT_RELEVANT") :
    (LLMNoResponseError msg).name = "LLMNoResponseError" ∧
    (LLMResponseCutOff msg).name = "LLMResponseCutOff" ∧
    (LLMNoResponseError msg).name ≠ (LLMResponseCutOff msg).name ∧
    (∀ e, o.embedResult = .ok e → o.generatorContent = none →
      POST messages o = .json [] []) ∧
    (o.embedResult = .error () → POST messages o = .errorResp "An error occurred") := by
  refine ⟨rfl, rfl, by simp [LLMNoResponseError, LLMResponseCutOff], ?_, ?_⟩
  · intro e he hg
    rw [POST_pipeline messages o h1 h2 h3 e he, hg]
    rfl
  · intro he
    simp only [POST, if_neg h1, if_neg h2, if_neg h3, he]

/-- C8 witness: concrete relevant-label request whose generation call returns
no content — the caller receives a plain success, and the two error names are
distinct. -/
theorem generationFailure_boundary_witness :
    POST [] ⟨some "RELEVANT", .ok none, .ok [], fun _ _ => 0, [], none, .ok []⟩ =
      .json [] [] ∧
    (LLMNoResponseError "m").name ≠ (LLMResponseCutOff "m").name :=
  ⟨(generationFailure_boundary "m" []
      ⟨some "RELEVANT", .ok none, .ok [], fun _ _ => 0, [], none, .ok []⟩
      (by decide) (by decide) (by decide)).2.2.2.1 [] rfl rfl,
   (generationFailure_boundary "m" []
      ⟨some "RELEVANT", .ok none, .ok [], fun _ _ => 0, [], none, .ok []⟩
      (by decide) (by decide) (by decide)).2.2.1⟩

/-- C8 counterexample: the upstream call returns no content at all
(`generatorContent = none`), yet the caller-visible boundary signals NO error
of any kind — the response is a successful JSON body with empty
`videoReferences` — refuting "a no-response error when the upstream call
returns no content at all" (and the cut-off subtype is likewise never
raised; both classes are dead code). -/
theorem generationFailure_claim_counterexample :
    POST [] ⟨some "RELEVANT", .ok none, .ok [], fun _ _ => 0, [], none, .ok []⟩ =
      .json [] [] := by
  decide

/-- C4 (amended): for every query vector and topK, `searchNeonDb` returns at
most `topK` documents ordered by non-increasing similarity score (strict
descent fails on ties — see the counterexample), excludes every row with a
null embedding from candidacy entirely, and when `topK` is not supplied it
defaults to 5 in the orchestrator's own service but to 3 in the shared
`lib/db.ts` service. -/
theorem searchNeonDb_spec (dist : List ℤ → List ℤ → ℤ) (q : List ℤ)
    (table : List DbRow) (topK : Nat) :
    (searchNeonDb dist q table topK).length ≤ topK ∧
    List.Pairwise (fun a b : Document => b.similarity_score ≤ a.similarity_score)
      (searchNeonDb dist q table topK) ∧
    searchNeonDb dist q table topK =
      searchNeonDb dist q (table.filter fun r => r.vector.isSome) topK ∧
    searchNeonDb dist q table = searchNeonDb dist q table 5 ∧
    searchNeonDb_lib dist q table = searchNeonDb_lib dist q table 3 := by
  refine ⟨?_, ?_, ?_, rfl, rfl⟩
  · simp only [searchNeonDb, List.length_map]
    exact List.length_take_le _ _
  · simp only [searchNeonDb]
    refine List.pairwise_map.mpr ?_
    have hs := pairwise_sortLe (fun a b : DbRow × ℤ => decide (a.2 ≤ b.2))
      (fun x y hxy => by
        simp only [decide_eq_false_iff_not] at hxy
        simpa using le_of_not_le hxy)
      (fun x y z hxy hyz => by
        simp only [decide_eq_true_eq] at hxy hyz ⊢
        exact le_trans hxy hyz)
      (table.filterMap fun r => r.vector.map fun v => (r, dist v q))
    refine (hs.sublist (List.take_sublist _ _)).imp ?_
    intro x y hxy
    simp only [decide_eq_true_eq] at hxy
    simpa using sub_le_sub_left hxy 1
  · simp only [searchNeonDb]
    rw [scored_filter]

/-- C4 counterexample: (a) the `lib/db.ts` variant called without `topK`
returns 3 of 4 eligible rows — its default is 3, not the claimed 5 (the
route.ts variant returns all 4); (b) two rows at equal distance produce the
score list `[1, 1]`, which is NOT strictly descending — the claimed strict
ordering fails on ties. -/
theorem searchNeonDb_claim_counterexample :
    (searchNeonDb_lib (fun v _ => v.headD 0) []
      [⟨"a", "t", "T", "u", "c", some [1]⟩, ⟨"b", "t", "T", "u", "c", some [2]⟩,
       ⟨"c", "t", "T", "u", "c", some [3]⟩, ⟨"d", "t", "T", "u", "c", some [4]⟩]).length = 3 ∧
    (searchNeonDb (fun v _ => v.headD 0) []
      [⟨"a", "t", "T", "u", "c", some [1]⟩, ⟨"b", "t", "T", "u", "c", some [2]⟩,
       ⟨"c", "t", "T", "u", "c", some [3]⟩, ⟨"d", "t", "T", "u", "c", some [4]⟩]).length = 4 ∧
    ([⟨"a", "t", "T", "u", "c", some [1]⟩, ⟨"b", "t", "T", "u", "c", some [2]⟩,
      ⟨"c", "t", "T", "u", "c", some [3]⟩,
      ⟨"d", "t", "T", "u", "c", some [4]⟩] : List DbRow).all
        (fun r => r.vector.isSome) = true ∧
    (searchNeonDb (fun _ _ => 0) []
      [⟨"a", "t", "T", "u", "c", some [0]⟩, ⟨"b", "t", "T", "u", "c", some [0]⟩] 5).map
        Document.similarity_score = [1, 1] ∧
    ¬ List.Pairwise (fun a b : Document => a.similarity_score > b.similarity_score)
      (searchNeonDb (fun _ _ => 0) []
        [⟨"a", "t", "T", "u", "c", some [0]⟩, ⟨"b", "t", "T", "u", "c", some [0]⟩] 5) := by
  decide

/-- C5 (amended): `getRelatedProducts` returns (deduplicated by id and ordered
by ascending id) exactly the formatted rows whose RAW comma-joined tags
column matches some term `%title%` under case-insensitive SQL `LIKE` — which
is implied by, but strictly weaker than, the claimed rule "some individual
tag contains some title as a substring": a title can match across a comma
boundary (see the counterexample). -/
theorem getRelatedProducts_spec (videoTitles : List String) (table : List ProductRow) :
    (∀ p ∈ getRelatedProducts videoTitles (.ok table), ∃ row ∈ table,
        productRowMatches videoTitles row = true ∧ p = formatProduct row) ∧
    (∀ row ∈ table, productRowMatches videoTitles row = true →
        ∃ p ∈ getRelatedProducts videoTitles (.ok table), p.id = row.id) ∧
    List.Pairwise (fun p q : Product => p.id < q.id)
      (getRelatedProducts videoTitles (.ok table)) ∧
    getRelatedProducts videoTitles (.error ()) = [] := by
  by_cases hemp : videoTitles.isEmpty
  · refine ⟨?_, ?_, ?_, getRelatedProducts_error videoTitles⟩
    · simp [getRelatedProducts, hemp]
    · intro row hrow hmatch
      rw [List.isEmpty_iff] at hemp
      subst hemp
      simp [productRowMatches] at hmatch
    · simp [getRelatedProducts, hemp]
  · have hunfold : getRelatedProducts videoTitles (.ok table) =
        (distinctOnId (sortLe (fun a b : ProductRow => decide (a.id ≤ b.id))
          (table.filter (productRowMatches videoTitles)))).map formatProduct := by
      simp [getRelatedProducts, hemp]
    have hsorted : List.Pairwise (fun a b : ProductRow => a.id ≤ b.id)
        (sortLe (fun a b : ProductRow => decide (a.id ≤ b.id))
          (table.filter (productRowMatches videoTitles))) := by
      refine (pairwise_sortLe (fun a b : ProductRow => decide (a.id ≤ b.id))
        ?_ ?_ _).imp ?_
      · intro x y hxy
        simp only [decide_eq_false_iff_not] at hxy
        simpa using le_of_not_le hxy
      · intro x y z hxy hyz
        simp only [decide_eq_true_eq] at hxy hyz ⊢
        exact le_trans hxy hyz
      · intro a b hab
        simpa using hab
    refine ⟨?_, ?_, ?_, getRelatedProducts_error videoTitles⟩
    · intro p hp
      rw [hunfold] at hp
      obtain ⟨row, hrow, rfl⟩ := List.mem_map.mp hp
      have hfil : row ∈ table.filter (productRowMatches videoTitles) :=
        (mem_sortLe _).mp (mem_distinctOnId_sub hrow)
      obtain ⟨hmem, hcond⟩ := List.mem_filter.mp hfil
      exact ⟨row, hmem, hcond, rfl⟩
    · intro row hrow hcond
      have hf : row ∈ table.filter (productRowMatches videoTitles) :=
        List.mem_filter.mpr ⟨hrow, hcond⟩
      have hso := (mem_sortLe (fun a b : ProductRow => decide (a.id ≤ b.id))).mpr hf
      obtain ⟨y, hy, hyid⟩ := distinctOnId_cover hso
      exact ⟨formatProduct y, by rw [hunfold]; exact List.mem_map_of_mem _ hy, hyid⟩
    · rw [hunfold]
      exact List.pairwise_map.mpr (distinctOnId_pairwise hsorted)

/-- C5 witness: a product whose tags column contains "Table Saw Safety"
matches the title "saw" (case-insensitive substring) and is returned. -/
theorem getRelatedProducts_spec_witness :
    ⟨"2", "P2", "Table Saw Safety", "l2"⟩ ∈ ([⟨"2", "P2", "Table Saw Safety", "l2"⟩] : List ProductRow) ∧
    ∃ p ∈ getRelatedProducts ["saw"] (.ok [⟨"2", "P2", "Table Saw Safety", "l2"⟩]),
      p.id = "2" :=
  ⟨by decide,
   (getRelatedProducts_spec ["saw"] [⟨"2", "P2", "Table Saw Safety", "l2"⟩]).2.1
     ⟨"2", "P2", "Table Saw Safety", "l2"⟩ (by decide) (by decide)⟩

/-- C5 counterexample: no individual tag of the product (tags column
`"saw,drill"`, i.e. tags "saw" and "drill") contains the video title
`"aw,dr"` as a substring (`specTagMatch` — the spec's rule — is false), yet
the product IS returned, because the SQL `LIKE` runs over the raw
comma-joined tags column where the title matches across the comma boundary.
This refutes "a product with no such tag is never returned". -/
theorem getRelatedProducts_substring_counterexample :
    getRelatedProducts ["aw,dr"] (.ok [⟨"1", "P", "saw,drill", "l"⟩])
      = [⟨"1", "l", ["saw", "drill"], "P"⟩] ∧
    specTagMatch ["aw,dr"] ⟨"1", "P", "saw,drill", "l"⟩ = false := by
  decide

/-- C2 (amended): for every match the extractor finds (its pattern accepts
only two-part `MM:SS` timestamps; an `HH:MM:SS` triple is not matched at all
— see the counterexample), extraction produces exactly one VideoReference per
match (`videoDict` has one entry per match), keyed by its 0-based position
among the matches in order of appearance, whose deep-link URL equals the
source URL with `t=60*MM+SS` appended using `&` if the URL already contains
`?`, else `?`. -/
theorem processVideoReferences_spec (content : String) (i : Nat) (m : TagMatch)
    (h : (scanTriples content.data)[i]? = some m) :
    (processVideoReferences content).2.length = (scanTriples content.data).length ∧
    ∃ a b d e : Char, a.isDigit = true ∧ b.isDigit = true ∧ d.isDigit = true ∧
      e.isDigit = true ∧ m.timestamp = String.mk [a, b, ':', d, e] ∧
      (processVideoReferences content).2[i]? = some (toString i,
        { urls := [m.url ++ (if m.url.data.contains '?' then "&" else "?") ++ "t=" ++
            toString (60 * (10 * (a.toNat - 48) + (b.toNat - 48)) +
              (10 * (d.toNat - 48) + (e.toNat - 48)))]
          timestamp := m.timestamp
          video_title := m.title
          description := "" }) := by
  have hm : m ∈ scanTriples content.data := by
    have := List.getElem?_eq_some.mp h
    exact this.choose_spec ▸ List.getElem_mem _
  obtain ⟨⟨a, b, d, e, ha, hb, hd, he, hts⟩, -, -, -, -⟩ :=
    scanAux_good content.data.length content.data m hm
  refine ⟨by simp [processVideoReferences, mapWithIdx_length],
    a, b, d, e, ha, hb, hd, he, hts, ?_⟩
  have hidx : (processVideoReferences content).2[i]? =
      some (toString i, mkVideoRef m) := by
    simp [processVideoReferences, mapWithIdx_getElem?, h]
  rw [hidx]
  congr 1
  congr 1
  rw [mkVideoRef]
  have hdata : m.timestamp.data = [a, b, ':', d, e] := by rw [hts]
  rw [hdata, seconds_mmss (isDigit_ne_colon ha) (isDigit_ne_colon hb)
    (isDigit_ne_colon hd) (isDigit_ne_colon he)]

/-- C2 witness: the triple `{{timestamp:05:30}}{{title:T}}{{url:https://x}}`
is match 0 and yields the deep link `https://x?t=330`. -/
theorem processVideoReferences_spec_witness :
    ((scanTriples "\x7b\x7btimestamp:05:30\x7d\x7d\x7b\x7btitle:T\x7d\x7d\x7b\x7burl:https://x\x7d\x7d".data)[0]? =
      some ⟨"05:30", "T", "https://x"⟩) ∧
    ((processVideoReferences "\x7b\x7btimestamp:05:30\x7d\x7d\x7b\x7btitle:T\x7d\x7d\x7b\x7burl:https://x\x7d\x7d").2.length =
      (scanTriples "\x7b\x7btimestamp:05:30\x7d\x7d\x7b\x7btitle:T\x7d\x7d\x7b\x7burl:https://x\x7d\x7d".data).length ∧
    ∃ a b d e : Char, a.isDigit = true ∧ b.isDigit = true ∧ d.isDigit = true ∧
      e.isDigit = true ∧
      (⟨"05:30", "T", "https://x"⟩ : TagMatch).timestamp = String.mk [a, b, ':', d, e] ∧
      (processVideoReferences "\x7b\x7btimestamp:05:30\x7d\x7d\x7b\x7btitle:T\x7d\x7d\x7b\x7burl:https://x\x7d\x7d").2[0]? =
        some (toString 0,
          { urls := [(⟨"05:30", "T", "https://x"⟩ : TagMatch).url ++
              (if (⟨"05:30", "T", "https://x"⟩ : TagMatch).url.data.contains '?'
                then "&" else "?") ++
              "t=" ++ toString (60 * (10 * (a.toNat - 48) + (b.toNat - 48)) +
                (10 * (d.toNat - 48) + (e.toNat - 48)))]
            timestamp := (⟨"05:30", "T", "https://x"⟩ : TagMatch).timestamp
            video_title := (⟨"05:30", "T", "https://x"⟩ : TagMatch).title
            description := "" })) :=
  ⟨by decide,
   processVideoReferences_spec "\x7b\x7btimestamp:05:30\x7d\x7d\x7b\x7btitle:T\x7d\x7d\x7b\x7burl:https://x\x7d\x7d" 0
     ⟨"05:30", "T", "https://x"⟩ (by decide)⟩

/-- C2 counterexample: the well-formed three-part triple with timestamp
`01:02:03` yields ZERO references — the pattern's `(\d{2}:\d{2})` group
rejects `HH:MM:SS` outright, rather than converting it to 3723 seconds as
claimed — while the same triple with the two-part `01:02` yields one. -/
theorem processVideoReferences_hhmmss_counterexample :
    (processVideoReferences "\x7b\x7btimestamp:01:02:03\x7d\x7d\x7b\x7btitle:A\x7d\x7d\x7b\x7burl:https://x\x7d\x7d").2 = [] ∧
    (processVideoReferences "\x7b\x7btimestamp:01:02\x7d\x7d\x7b\x7btitle:A\x7d\x7d\x7b\x7burl:https://x\x7d\x7d").2.length = 1 := by
  decide

/-- C9 (amended): extraction is a total function (never throws), and a
partial tag missing the url part contributes zero VideoReferences whenever no
`{{url:` text occurs in the input — in particular the spec's example
`{{timestamp:05:30}}{{title:X}}` yields zero.  The unrestricted claim "without
affecting the extraction of other well-formed tags in the same text" fails:
an unterminated `{{url:` fragment can swallow a following well-formed triple
(see the counterexample). -/
theorem extraction_partialTag_noUrl (s : List Char) (h : ¬ ("\x7b\x7burl:".data <:+: s)) :
    scanTriples s = [] ∧ (processVideoReferences (String.mk s)).2 = [] := by
  have h1 : scanTriples s = [] := scanAux_no_url s.length s h
  refine ⟨h1, ?_⟩
  have h2 : (processVideoReferences (String.mk s)).2 =
      mapWithIdx (fun i m => (toString i, mkVideoRef m)) 0 (scanTriples s) := rfl
  rw [h2, h1]
  rfl

/-- C9 witness: the spec's partial-tag example yields zero references. -/
theorem extraction_partialTag_noUrl_witness :
    ¬ ("\x7b\x7burl:".data <:+: "\x7b\x7btimestamp:05:30\x7d\x7d\x7b\x7btitle:X\x7d\x7d".data) ∧
    (scanTriples "\x7b\x7btimestamp:05:30\x7d\x7d\x7b\x7btitle:X\x7d\x7d".data = [] ∧
     (processVideoReferences (String.mk "\x7b\x7btimestamp:05:30\x7d\x7d\x7b\x7btitle:X\x7d\x7d".data)).2 = []) :=
  ⟨by decide, extraction_partialTag_noUrl "\x7b\x7btimestamp:05:30\x7d\x7d\x7b\x7btitle:X\x7d\x7d".data (by decide)⟩

/-- C9 counterexample: the text is a partial tag whose `{{url:` part is
never closed, immediately followed by a well-formed triple; that triple
occurs verbatim in the text (third conjunct) and on its own extracts to
`⟨03:04, Y, Z⟩` (second conjunct), yet extraction of the whole text returns
ONE reference — a garbage one whose url is the absorbed text — and does NOT
extract the well-formed triple.  The malformed fragment thus contributed a
reference and suppressed a well-formed tag. -/
theorem extraction_swallow_counterexample :
    scanTriples ("\x7b\x7btimestamp:01:02\x7d\x7d\x7b\x7btitle:X\x7d\x7d\x7b\x7burl:" ++
        "\x7b\x7btimestamp:03:04\x7d\x7d\x7b\x7btitle:Y\x7d\x7d\x7b\x7burl:Z\x7d\x7d").data
      = [⟨"01:02", "X", "\x7b\x7btimestamp:03:04"⟩] ∧
    scanTriples "\x7b\x7btimestamp:03:04\x7d\x7d\x7b\x7btitle:Y\x7d\x7d\x7b\x7burl:Z\x7d\x7d".data = [⟨"03:04", "Y", "Z"⟩] ∧
    ("\x7b\x7btimestamp:03:04\x7d\x7d\x7b\x7btitle:Y\x7d\x7d\x7b\x7burl:Z\x7d\x7d".data <:+:
      ("\x7b\x7btimestamp:01:02\x7d\x7d\x7b\x7btitle:X\x7d\x7d\x7b\x7burl:" ++
        "\x7b\x7btimestamp:03:04\x7d\x7d\x7b\x7btitle:Y\x7d\x7d\x7b\x7burl:Z\x7d\x7d").data) := by
  refine ⟨by decide, by decide, by decide⟩

/-- C10: the matcher accepts only title and url texts entirely free of `}`:
every extracted reference has a brace-free title and url, and a tag triple
whose title contains even a single `}` (here `a}b`, legal under the wire
format, which only forbids the two-character `}}`) is not extracted at all,
while the same triple without the brace is. -/
theorem extraction_braceFree (content : String) :
    (∀ m ∈ scanTriples content.data,
        (∀ ch ∈ m.title.data, ch ≠ '}') ∧ (∀ ch ∈ m.url.data, ch ≠ '}')) ∧
    (processVideoReferences "\x7b\x7btimestamp:05:30\x7d\x7d\x7b\x7btitle:a\x7db\x7d\x7d\x7b\x7burl:https://x\x7d\x7d").2 = [] ∧
    (processVideoReferences "\x7b\x7btimestamp:05:30\x7d\x7d\x7b\x7btitle:ab\x7d\x7d\x7b\x7burl:https://x\x7d\x7d").2 ≠ [] := by
  refine ⟨?_, by decide, by decide⟩
  intro m hm
  obtain ⟨-, -, ht, -, hu⟩ := scanAux_good content.data.length content.data m hm
  exact ⟨ht, hu⟩

/-- C10 witness: the reference extracted from a concrete triple has a
brace-free title and url. -/
theorem extraction_braceFree_witness :
    (∀ ch ∈ ("T" : String).data, ch ≠ '}') ∧
    (∀ ch ∈ ("https://x" : String).data, ch ≠ '}') :=
  (extraction_braceFree "\x7b\x7btimestamp:05:30\x7d\x7d\x7b\x7btitle:T\x7d\x7d\x7b\x7burl:https://x\x7d\x7d").1
    ⟨"05:30", "T", "https://x"⟩ (by decide)
